import Mathlib

/-!
Verification development for the Splitter repository (src/splitter.py).

The Python source is shallowly embedded as executable Lean definitions.
External library effects (the filesystem, the HTTP client, the PIL image
decoder) are abstracted into an explicit environment record `Splitter.Env`
that each embedded function consumes; the repository's own logic (branching,
string manipulation, the split geometry, the write loop) is translated
line by line from the source.
-/

namespace Splitter

/-- Python str.lower for the ASCII strings this program handles, written
structurally so that it evaluates inside the kernel. -/
def pyLower (s : String) : String := String.mk (s.toList.map Char.toLower)

/-- Python str.startswith, written structurally. -/
def pyStartsWith (s pre : String) : Bool := List.isPrefixOf pre.toList s.toList

/-- Python str.endswith, written structurally. -/
def pyEndsWith (s suf : String) : Bool := List.isSuffixOf suf.toList s.toList

/-- Split a character list at every occurrence of c (Python str.split with
a one-character separator: "a//b" gives ["a", "", "b"], "" gives [""]). -/
def splitOnChar (c : Char) : List Char → List (List Char)
  | [] => [[]]
  | x :: xs =>
    if x = c then [] :: splitOnChar c xs
    else match splitOnChar c xs with
      | [] => [[x]]
      | h :: t => (x :: h) :: t

/-- Python str.split with a one-character separator, on strings. -/
def pySplit (s : String) (c : Char) : List String :=
  (splitOnChar c s.toList).map String.mk

/-- Python str.strip: drop leading and trailing whitespace. -/
def pyStrip (s : String) : String :=
  String.mk (((s.toList.dropWhile Char.isWhitespace).reverse.dropWhile
    Char.isWhitespace).reverse)

/-- Last index of character c in the list, if any (Python str.rfind). -/
def lastIndexOf (cs : List Char) (c : Char) : Option Nat :=
  ((List.range cs.length).filter (fun i => decide (cs.get? i = some c))).getLast?

/-- Embeds posixpath.splitext: split a path into (root, ext), where ext
starts at the final dot of the final component, unless every character of
the final component before that dot is itself a dot (hidden files such as
".bashrc" have no extension). -/
def splitext (p : String) : String × String :=
  let cs := p.toList
  let s : Nat := match lastIndexOf cs '/' with
    | none => 0
    | some i => i + 1
  match lastIndexOf cs '.' with
  | none => (p, "")
  | some d =>
    if s ≤ d then
      if (List.range' s (d - s)).any (fun i => decide (cs.get? i ≠ some '.')) then
        (String.mk (cs.take d), String.mk (cs.drop d))
      else (p, "")
    else (p, "")

/-- Embeds os.path.basename: the component after the last slash. -/
def basename (p : String) : String :=
  match lastIndexOf p.toList '/' with
  | none => p
  | some i => String.mk (p.toList.drop (i + 1))

/-- Embeds os.path.join for the two-argument form used by the source. -/
def osJoin (a b : String) : String :=
  if pyStartsWith b "/" then b
  else if a = "" ∨ pyEndsWith a "/" then a ++ b
  else a ++ "/" ++ b

/-- A character allowed inside a URL scheme (urllib.parse.scheme_chars). -/
def isSchemeChar (c : Char) : Bool :=
  c.isAlphanum || c = '+' || c = '-' || c = '.'

/-- Embeds the scheme extraction of urllib.parse.urlparse: the lower-cased
text before the first colon when it is a well-formed scheme, else "". -/
def urlparse_scheme (url : String) : String :=
  match url.toList.findIdx? (fun c => decide (c = ':')) with
  | none => ""
  | some i =>
    match url.toList.take i with
    | [] => ""
    | c :: rest =>
      if c.isAlpha && rest.all isSchemeChar then
        String.mk ((url.toList.take i).map Char.toLower)
      else ""

/-- A Python exception escaping the embedded code uncaught. -/
inductive PyError where
  | nameError : String → PyError
  | attributeError : String → PyError
deriving Repr, DecidableEq

/-- An in-memory decoded raster, as far as the source consults it. -/
structure Image where
  width : Nat
  height : Nat
deriving Repr, DecidableEq

/-- The ambient world the script runs against: filesystem predicates, the
os.walk traversal (each element one (root, filenames) pair in yield order;
the dirnames component is unused by the source), the HTTP HEAD probe
(some contentTypeHeader on a success status, none on a request exception or
error status), PIL local and remote decode outcomes, and whether a
quadrant save at a given path succeeds. -/
structure Env where
  isFile : String → Bool
  isDir : String → Bool
  walk : String → List (String × List String)
  head : String → Option String
  localOpen : String → Option Image
  remoteOpen : String → Option Image
  saveOk : String → Bool

/-- Embeds check_remote_file_content_type (src/splitter.py:289-322).
image_types = none models a non-collection argument (the isinstance
check); a success probe yields the content-type header (defaulted to ""
when the header is absent, per headers.get). -/
def check_remote_file_content_type (head : String → Option String)
    (url : String) (image_types : Option (List String)) : Bool :=
  match image_types with
  | none => false
  | some ts =>
    if ts.isEmpty then false
    else
      let supported_extensions := ts.map (fun img_type => "image/" ++ img_type)
      match head url with
      | none => false
      | some content_type =>
        supported_extensions.any (fun ext => pyStartsWith (pyLower content_type) ext)

/-- Embeds get_content_type (src/splitter.py:83-106). On the local-file
branch the source evaluates mimetypes.guess_type although the module
mimetypes is never imported, so that branch raises NameError. -/
def get_content_type (env : Env) (path : String) : Except PyError (Option String) :=
  if env.isFile path then
    Except.error (PyError.nameError "mimetypes")
  else if urlparse_scheme path = "http" ∨ urlparse_scheme path = "https" then
    Except.ok (env.head path)
  else
    Except.ok none

/-- Embeds get_image_type (src/splitter.py:108-111): content_type.split
on a None content type raises AttributeError; otherwise the last
slash-separated token is returned. -/
def get_image_type (env : Env) (path : String) : Except PyError String :=
  match get_content_type env path with
  | Except.error e => Except.error e
  | Except.ok none => Except.error (PyError.attributeError "NoneType.split")
  | Except.ok (some content_type) => Except.ok ((pySplit content_type (Char.ofNat 47)).getLastD "")

/-- Embeds acquire_image (src/splitter.py:182-216): try the local PIL
decode first; on failure, consult check_remote_file_content_type and, if
approved, stream and decode the remote body. Every exception of either
attempt is caught, so the outcome is an Option. -/
def acquire_image (env : Env) (image_path : String)
    (image_types : Option (List String)) : Option Image :=
  match env.localOpen image_path with
  | some img => some img
  | none =>
    if check_remote_file_content_type env.head image_path image_types then
      env.remoteOpen image_path
    else none

/-- Embeds find_qualified_files (src/splitter.py:325-357). The output_dir
parameter is carried exactly as in the source. A non-recursive directory
scan processes only the first (root, files) pair yielded by os.walk, as
the loop body breaks after the first iteration. -/
def find_qualified_files (env : Env) (input_paths : List String)
    (supported_extensions : List String) (recursive : Bool)
    (output_dir : String) : List String :=
  input_paths.flatMap (fun input_path =>
    if env.isFile input_path then
      if pyLower (splitext input_path).2 ∈ supported_extensions then [input_path]
      else []
    else if env.isDir input_path then
      let w := if recursive then env.walk input_path else (env.walk input_path).take 1
      w.flatMap (fun rootFiles =>
        rootFiles.2.filterMap (fun file =>
          if pyLower (splitext file).2 ∈ supported_extensions then
            some (osJoin rootFiles.1 file)
          else none))
    else if check_remote_file_content_type env.head input_path (some supported_extensions) then
      [input_path]
    else [])

/-- A PIL crop box (left, upper, right, lower); the region covers the
half-open pixel ranges left ≤ x < right, upper ≤ y < lower. -/
structure Rect where
  left : Nat
  upper : Nat
  right : Nat
  lower : Nat
deriving Repr, DecidableEq

/-- Whether pixel (x, y) lies inside the crop box. -/
def Rect.containsB (r : Rect) (x y : Nat) : Bool :=
  decide (r.left ≤ x) && decide (x < r.right) &&
  decide (r.upper ≤ y) && decide (y < r.lower)

/-- Width of a crop box. -/
def Rect.rectWidth (r : Rect) : Nat := r.right - r.left

/-- Height of a crop box. -/
def Rect.rectHeight (r : Rect) : Nat := r.lower - r.upper

/-- Embeds the four crop boxes of split_image (src/splitter.py:245-251):
top-left, top-right, bottom-left, bottom-right, with mid_x = width // 2
and mid_y = height // 2. -/
def quadrant_boxes (width height : Nat) : List Rect :=
  let mid_x := width / 2
  let mid_y := height / 2
  [⟨0, 0, mid_x, mid_y⟩,
   ⟨mid_x, 0, width, mid_y⟩,
   ⟨0, mid_y, mid_x, height⟩,
   ⟨mid_x, mid_y, width, height⟩]

/-- The output path of quadrant i (0-based), named base_name_(i+1).fmt
inside output_dir (src/splitter.py:273). -/
def target_name (output_dir base_name output_format : String) (i : Nat) : String :=
  osJoin output_dir (base_name ++ "_" ++ toString (i + 1) ++ "." ++ output_format)

/-- Embeds the write loop of split_image (src/splitter.py:270-287) over
the quadrant list. State is the set of files existing in the output
namespace (fs) plus the accumulated list of files written this run. A
path already existing is silently skipped; a failed save aborts the
remaining quadrants and reports False, keeping earlier writes. -/
def save_quadrants (env : Env) (output_dir base_name output_format : String) :
    List Rect → Nat → List String → List String → Bool × List String × List String
  | [], _, fs, written => (true, fs, written)
  | _quadrant :: rest, i, fs, written =>
    let output_file := target_name output_dir base_name output_format i
    if output_file ∈ fs then
      save_quadrants env output_dir base_name output_format rest (i + 1) fs written
    else if env.saveOk output_file then
      save_quadrants env output_dir base_name output_format rest (i + 1)
        (fs ++ [output_file]) (written ++ [output_file])
    else
      (false, fs, written)

/-- Embeds split_image (src/splitter.py:219-287). fs is the set of
existing output files; the result is (success, new fs, files written),
or a PyError when the format-resolution stage raises one uncaught. -/
def split_image (env : Env) (fs : List String) (image_path output_dir output_format : String)
    (image_types : Option (List String)) : Except PyError (Bool × List String × List String) :=
  match acquire_image env image_path image_types with
  | none => Except.ok (false, fs, [])
  | some img =>
    if img.width % 2 ≠ 0 ∨ img.height % 2 ≠ 0 then Except.ok (false, fs, [])
    else
      let quadrants := quadrant_boxes img.width img.height
      let fmtE : Except PyError String :=
        if output_format = "" ∨ output_format = "default" then get_image_type env image_path
        else Except.ok output_format
      match fmtE with
      | Except.error e => Except.error e
      | Except.ok fmt =>
        if fmt = "" then Except.ok (false, fs, [])
        else
          let base_name := (splitext (basename image_path)).1
          Except.ok (save_quadrants env output_dir base_name fmt quadrants 0 fs [])

/-- Config files as an association list from path to content. -/
def lookupFile (fs : List (String × String)) (p : String) : Option String :=
  (fs.find? (fun e => decide (e.1 = p))).map Prod.snd

/-- The default contents ensure_config_files provisions
(src/splitter.py:24-29). -/
def config_defaults : List (String × String) :=
  [("extensions.txt", "png\njpg\njpeg\nwebp"),
   ("output_location.txt", "default"),
   ("output_format.txt", "default"),
   ("recursive.txt", "true")]

/-- Embeds ensure_config_files (src/splitter.py:22-37): each config file
absent from the filesystem is created with its default content. -/
def ensure_config_files (config_dir : String) (fs : List (String × String)) :
    List (String × String) :=
  config_defaults.foldl (fun acc kv =>
    match lookupFile acc (osJoin config_dir kv.1) with
    | some _ => acc
    | none => acc ++ [(osJoin config_dir kv.1, kv.2)]) fs

/-- Embeds load_supported_extensions (src/splitter.py:40-47): a missing
file is sys.exit(1), modelled as Except.error 1; otherwise the non-blank
lines, stripped and lower-cased. -/
def load_supported_extensions (fs : List (String × String)) (path : String) :
    Except Nat (List String) :=
  match lookupFile fs path with
  | none => Except.error 1
  | some content =>
    Except.ok (((pySplit content (Char.ofNat 10)).filter (fun l => pyStrip l ≠ "")).map
      (fun l => pyLower (pyStrip l)))

/-- Embeds load_output_format (src/splitter.py:50-63): missing file or no
non-blank line is sys.exit(1); otherwise the first entry. -/
def load_output_format (fs : List (String × String)) (path : String) :
    Except Nat String :=
  match lookupFile fs path with
  | none => Except.error 1
  | some content =>
    match ((pySplit content (Char.ofNat 10)).filter (fun l => pyStrip l ≠ "")).map
        (fun l => pyLower (pyStrip l)) with
    | [] => Except.error 1
    | o :: _ => Except.ok o

/-- Embeds load_recursive_policy (src/splitter.py:66-81): missing file is
sys.exit(1); the stripped, lower-cased content is truthy iff it is yes or
true. -/
def load_recursive_policy (fs : List (String × String)) (path : String) :
    Except Nat Bool :=
  match lookupFile fs path with
  | none => Except.error 1
  | some content =>
    Except.ok (pyLower (pyStrip content) = "yes" ∨ pyLower (pyStrip content) = "true")

/-- Embeds the configuration phase of main (src/splitter.py:368-378):
ensure_config_files runs first, then the three loaders; an Except.error
is the non-zero exit status of sys.exit. -/
def main_config_phase (fs : List (String × String)) :
    Except Nat (List String × String × Bool) :=
  let fs1 := ensure_config_files "config" fs
  match load_supported_extensions fs1 (osJoin "config" "extensions.txt") with
  | Except.error n => Except.error n
  | Except.ok exts =>
    match load_output_format fs1 (osJoin "config" "output_format.txt") with
    | Except.error n => Except.error n
    | Except.ok fmt =>
      match load_recursive_policy fs1 (osJoin "config" "recursive.txt") with
      | Except.error n => Except.error n
      | Except.ok recursive => Except.ok (exts, fmt, recursive)

/-- Follows the spec's words, for comparison with the source: a local file
qualifies iff its filename extension, lower-cased and with the leading dot
stripped, is a member of the supported-extension set. -/
def spec_local_qualifies (path : String) (supported : List String) : Bool :=
  let e := pyLower (splitext path).2
  let stripped := if pyStartsWith e "." then String.mk (e.toList.drop 1) else e
  supported.contains stripped

/-- A world holding the single local file grid.png, which decodes to an
800×600 image; every network probe fails; saves succeed. -/
def envGrid : Env := Env.mk
  (fun p => decide (p = "grid.png"))
  (fun _ => false)
  (fun _ => [])
  (fun _ => none)
  (fun p => if p = "grid.png" then some (Image.mk 800 600) else none)
  (fun _ => none)
  (fun _ => true)

/-- A world with the input directory indir containing g.png and, nested
inside it, the output directory indir/outputs holding a previously
produced quadrant g_1.png; os.walk of indir yields both levels. -/
def envTree : Env := Env.mk
  (fun _ => false)
  (fun p => decide (p = "indir"))
  (fun p => if p = "indir" then
      [("indir", ["g.png"]), ("indir/outputs", ["g_1.png"])] else [])
  (fun _ => none)
  (fun _ => none)
  (fun _ => none)
  (fun _ => true)

/-- A world with the directory d holding a.png and notes.txt at its top
level and b.png inside the subdirectory d/sub. -/
def envDir : Env := Env.mk
  (fun _ => false)
  (fun p => decide (p = "d"))
  (fun p => if p = "d" then
      [("d", ["a.png", "notes.txt"]), ("d/sub", ["b.png"])] else [])
  (fun _ => none)
  (fun _ => none)
  (fun _ => none)
  (fun _ => true)

/-- A world holding the single local file odd.png, which decodes to an
801×600 image. -/
def envOdd : Env := Env.mk
  (fun p => decide (p = "odd.png"))
  (fun _ => false)
  (fun _ => [])
  (fun _ => none)
  (fun p => if p = "odd.png" then some (Image.mk 801 600) else none)
  (fun _ => none)
  (fun _ => true)

/-- Claim C1: the claim says an existing local file qualifies iff its
extension, lower-cased and with the leading dot stripped, is in the
supported set; the code compares the extension with its dot still
attached, so grid.png fails against the program's own default token set
even though the claim (first conjunct) says it qualifies. -/
theorem c1_local_file_dotted_extension_divergence :
    spec_local_qualifies "grid.png" ["png", "jpg", "jpeg", "webp"] = true ∧
    find_qualified_files envGrid ["grid.png"] ["png", "jpg", "jpeg", "webp"]
      false "outputs" = [] := by
  constructor
  · decide
  · decide

/-- Claim C2, counterexample: with the output directory indir/outputs
nested inside the scanned input directory indir, the previously produced
quadrant indir/outputs/g_1.png appears in the enumerated candidate list,
so the output directory is not excluded from candidate enumeration. -/
theorem c2_output_file_enumerated :
    "indir/outputs/g_1.png" ∈
      find_qualified_files envTree ["indir"] [".png"] true "indir/outputs" := by
  decide

/-- Claim C2, amended: the enumerator never consults the configured
output directory — its result is identical for every outputDir argument —
so directories identical to outputDir are traversed like any other and
their files can appear as candidates. -/
theorem c2_output_dir_ignored (env : Env) (input_paths : List String)
    (supported_extensions : List String) (recursive : Bool) (od od2 : String) :
    find_qualified_files env input_paths supported_extensions recursive od =
      find_qualified_files env input_paths supported_extensions recursive od2 := rfl

/-- Claim C3, counterexample: with recursive = false the enumerator does
apply the supported-extension filter to the directory's immediate
entries: notes.txt is not listed as a candidate even though the claim
says every regular file found is a candidate unconditionally. -/
theorem c3_nonrecursive_still_filters :
    find_qualified_files envDir ["d"] [".png"] false "outputs" = ["d/a.png"] ∧
    "d/notes.txt" ∉ find_qualified_files envDir ["d"] [".png"] false "outputs" := by
  constructor
  · decide
  · decide

/-- Claim C4: with formatPreference the default sentinel and a qualified
local file, the format-resolution stage calls get_content_type, whose
local-file branch evaluates the never-imported mimetypes module; the run
crashes with NameError instead of skipping the file. -/
theorem c4_default_format_crashes :
    split_image envGrid [] "grid.png" "outputs" "default"
      (some ["png", "jpg", "jpeg", "webp"]) =
      Except.error (PyError.nameError "mimetypes") := rfl

/-- Claim C5: for an existing local file the resolver raises NameError
(mimetypes is never imported) instead of returning the extension-derived
media type; the failure branches (failed probe of an http URL, and an
unparseable specifier) do return absent as claimed. -/
theorem c5_resolver_local_file_raises :
    get_content_type envGrid "grid.png" = Except.error (PyError.nameError "mimetypes") ∧
    get_content_type envGrid "http://ex.com/a.png" = Except.ok none ∧
    get_content_type envGrid "not a url" = Except.ok none :=
  ⟨rfl, rfl, rfl⟩

/-- Claim C9, counterexample: a run starting with every configuration
file missing does not terminate with a non-zero status: main first
provisions the missing files with default contents, and the loaders then
succeed, yielding the default extension set, format and recursion flag. -/
theorem c9_missing_config_self_heals :
    main_config_phase [] =
      Except.ok (["png", "jpg", "jpeg", "webp"], "default", true) := rfl

/-- Claim C3, amended: with recursive false the enumerator processes only
the first (root, files) pair yielded by the walk — the directory's
immediate entries — and applies the same extension-membership filter as
the recursive branch (lower-cased splitext extension, leading dot
included) instead of accepting every regular file unconditionally. -/
theorem c3_nonrecursive_depth_one_filtered (env : Env) (d od root : String)
    (files : List String) (rest : List (String × List String))
    (supported : List String)
    (h1 : env.isFile d = false) (h2 : env.isDir d = true)
    (h3 : env.walk d = (root, files) :: rest) :
    find_qualified_files env [d] supported false od =
      files.filterMap (fun file =>
        if pyLower (splitext file).2 ∈ supported then some (osJoin root file)
        else none) := by
  simp [find_qualified_files, h1, h2, h3]

/-- Witness for claim C3's amended theorem at the concrete directory d. -/
theorem c3_depth_one_witness :
    find_qualified_files envDir ["d"] [".png"] false "out2" =
      ["a.png", "notes.txt"].filterMap (fun file =>
        if pyLower (splitext file).2 ∈ [".png"] then some (osJoin "d" file)
        else none) :=
  c3_nonrecursive_depth_one_filtered envDir "d" "out2" "d" ["a.png", "notes.txt"]
    [("d/sub", ["b.png"])] [".png"] rfl rfl rfl

/-- Claim C6: for even dimensions the split uses the integer-division mid
points and produces exactly the four crop boxes top-left, top-right,
bottom-left, bottom-right, each of dimensions width/2 × height/2, and
every pixel of the source lies in exactly one box — the quadrants are
pairwise non-overlapping and tile the image with no gap. -/
theorem c6_quadrants_tile (width height : Nat)
    (hw : width % 2 = 0) (hh : height % 2 = 0) :
    quadrant_boxes width height =
      [Rect.mk 0 0 (width / 2) (height / 2),
       Rect.mk (width / 2) 0 width (height / 2),
       Rect.mk 0 (height / 2) (width / 2) height,
       Rect.mk (width / 2) (height / 2) width height] ∧
    (∀ r ∈ quadrant_boxes width height,
      r.rectWidth = width / 2 ∧ r.rectHeight = height / 2) ∧
    (∀ x y, x < width → y < height →
      (quadrant_boxes width height).countP (fun r => r.containsB x y) = 1) := by
  refine ⟨rfl, ?_, ?_⟩
  · intro r hr
    simp only [quadrant_boxes, List.mem_cons, List.not_mem_nil, or_false] at hr
    rcases hr with h | h | h | h <;> subst h <;>
      exact ⟨by simp only [Rect.rectWidth]; omega, by simp only [Rect.rectHeight]; omega⟩
  · intro x y hx hy
    simp only [quadrant_boxes, List.countP_cons, List.countP_nil, Rect.containsB,
      Bool.and_eq_true, decide_eq_true_eq]
    split_ifs <;> omega

/-- Witness for claim C6's theorem at the concrete even size 800 × 600. -/
theorem c6_tile_witness :
    (800 % 2 = 0 ∧ 600 % 2 = 0) ∧
    (quadrant_boxes 800 600 =
      [Rect.mk 0 0 400 300, Rect.mk 400 0 800 300,
       Rect.mk 0 300 400 600, Rect.mk 400 300 800 600] ∧
    (∀ r ∈ quadrant_boxes 800 600, r.rectWidth = 400 ∧ r.rectHeight = 300) ∧
    (∀ x y, x < 800 → y < 600 →
      (quadrant_boxes 800 600).countP (fun r => r.containsB x y) = 1)) :=
  ⟨⟨rfl, rfl⟩, c6_quadrants_tile 800 600 rfl rfl⟩

/-- Claim C8: when the acquired image has an odd width or an odd height,
split_image reports failure, the output-file state is returned unchanged
and nothing is written. -/
theorem c8_odd_dimensions_skip (env : Env) (fs : List String)
    (image_path output_dir output_format : String)
    (image_types : Option (List String)) (img : Image)
    (h1 : acquire_image env image_path image_types = some img)
    (h2 : img.width % 2 ≠ 0 ∨ img.height % 2 ≠ 0) :
    split_image env fs image_path output_dir output_format image_types =
      Except.ok (false, fs, []) := by
  simp only [split_image, h1]
  rw [if_pos h2]

/-- Witness for claim C8's theorem at a concrete 801 × 600 image. -/
theorem c8_odd_witness :
    acquire_image envOdd "odd.png" (some ["png"]) = some (Image.mk 801 600) ∧
    ((Image.mk 801 600).width % 2 ≠ 0 ∨ (Image.mk 801 600).height % 2 ≠ 0) ∧
    split_image envOdd [] "odd.png" "outputs" "png" (some ["png"]) =
      Except.ok (false, [], []) :=
  ⟨rfl, by decide,
    c8_odd_dimensions_skip envOdd [] "odd.png" "outputs" "png" (some ["png"])
      (Image.mk 801 600) rfl (by decide)⟩

/-- Claim C10: the remote eligibility checker rejects a non-collection
supported set, rejects an empty one, rejects on probe failure, and on a
successful probe accepts iff the lower-cased content-type header starts
with "image/" followed by some supported token. -/
theorem c10_remote_eligibility (head : String → Option String)
    (url ct : String) (ts : List String) :
    check_remote_file_content_type head url none = false ∧
    check_remote_file_content_type head url (some []) = false ∧
    (head url = none → check_remote_file_content_type head url (some ts) = false) ∧
    (head url = some ct → ts ≠ [] →
      (check_remote_file_content_type head url (some ts) = true ↔
        ∃ t ∈ ts, pyStartsWith (pyLower ct) ("image/" ++ t) = true)) := by
  refine ⟨rfl, rfl, ?_, ?_⟩
  · intro h
    cases ts with
    | nil => rfl
    | cons a l => simp [check_remote_file_content_type, h]
  · intro h hts
    have hE : ts.isEmpty = false := by
      cases ts with
      | nil => exact absurd rfl hts
      | cons a l => rfl
    simp [check_remote_file_content_type, hE, h, List.any_eq_true]

/-- Every file present before the write loop remains present after it. -/
theorem save_quadrants_mono (env : Env) (od bn fmt : String) :
    ∀ (qs : List Rect) (i : Nat) (fs w : List String) (p : String),
      p ∈ fs → p ∈ (save_quadrants env od bn fmt qs i fs w).2.1 := by
  intro qs
  induction qs with
  | nil => intro i fs w p hp; simpa [save_quadrants] using hp
  | cons q rest ih =>
    intro i fs w p hp
    simp only [save_quadrants]
    split
    · exact ih (i + 1) fs w p hp
    · split
      · exact ih (i + 1) _ _ p (List.mem_append_left _ hp)
      · simpa using hp

/-- After a successful write loop, the target of every quadrant index
processed by the loop exists. -/
theorem save_quadrants_success_targets (env : Env) (od bn fmt : String) :
    ∀ (qs : List Rect) (i : Nat) (fs w fs1 w1 : List String),
      save_quadrants env od bn fmt qs i fs w = (true, fs1, w1) →
      ∀ j, j < qs.length → target_name od bn fmt (i + j) ∈ fs1 := by
  intro qs
  induction qs with
  | nil =>
    intro i fs w fs1 w1 h j hj
    exact absurd hj (by simp)
  | cons q rest ih =>
    intro i fs w fs1 w1 h j hj
    simp only [save_quadrants] at h
    split at h
    case isTrue hmem =>
      rcases Nat.eq_zero_or_pos j with hj0 | hjpos
      · subst hj0
        have hm := save_quadrants_mono env od bn fmt rest (i + 1) fs w
          (target_name od bn fmt i) hmem
        rw [h] at hm
        simpa using hm
      · obtain ⟨j0, rfl⟩ : ∃ j0, j = j0 + 1 := ⟨j - 1, by omega⟩
        rw [show i + (j0 + 1) = (i + 1) + j0 by omega]
        exact ih (i + 1) fs w fs1 w1 h j0 (by simpa using hj)
    case isFalse hmem =>
      split at h
      case isTrue hs =>
        rcases Nat.eq_zero_or_pos j with hj0 | hjpos
        · subst hj0
          have hin : target_name od bn fmt i ∈ fs ++ [target_name od bn fmt i] := by
            simp
          have hm := save_quadrants_mono env od bn fmt rest (i + 1)
            (fs ++ [target_name od bn fmt i]) (w ++ [target_name od bn fmt i])
            (target_name od bn fmt i) hin
          rw [h] at hm
          simpa using hm
        · obtain ⟨j0, rfl⟩ : ∃ j0, j = j0 + 1 := ⟨j - 1, by omega⟩
          rw [show i + (j0 + 1) = (i + 1) + j0 by omega]
          exact ih (i + 1) _ _ fs1 w1 h j0 (by simpa using hj)
      case isFalse hs =>
        exact absurd h (by simp)

/-- When every target the loop would name already exists, the write loop
changes nothing, writes nothing and succeeds. -/
theorem save_quadrants_all_present (env : Env) (od bn fmt : String) :
    ∀ (qs : List Rect) (i : Nat) (fs w : List String),
      (∀ j, j < qs.length → target_name od bn fmt (i + j) ∈ fs) →
      save_quadrants env od bn fmt qs i fs w = (true, fs, w) := by
  intro qs
  induction qs with
  | nil => intro i fs w _; rfl
  | cons q rest ih =>
    intro i fs w hall
    have h0 : target_name od bn fmt i ∈ fs := by
      have := hall 0 (by simp)
      simpa using this
    simp only [save_quadrants]
    rw [if_pos h0]
    exact ih (i + 1) fs w (fun j hj => by
      have := hall (j + 1) (by simpa using Nat.succ_lt_succ hj)
      rwa [show i + (j + 1) = (i + 1) + j by omega] at this)

/-- Every file the write loop adds to the written list was either already
in the written accumulator or absent from the starting state. -/
theorem save_quadrants_writes_new (env : Env) (od bn fmt : String) :
    ∀ (qs : List Rect) (i : Nat) (fs w : List String) (b : Bool)
      (fs1 w1 : List String),
      save_quadrants env od bn fmt qs i fs w = (b, fs1, w1) →
      ∀ p ∈ w1, p ∈ w ∨ p ∉ fs := by
  intro qs
  induction qs with
  | nil =>
    intro i fs w b fs1 w1 h p hp
    simp only [save_quadrants, Prod.mk.injEq] at h
    obtain ⟨_, _, hw⟩ := h
    subst hw
    exact Or.inl hp
  | cons q rest ih =>
    intro i fs w b fs1 w1 h p hp
    simp only [save_quadrants] at h
    split at h
    case isTrue hmem => exact ih (i + 1) fs w b fs1 w1 h p hp
    case isFalse hmem =>
      split at h
      case isTrue hs =>
        rcases ih (i + 1) _ _ b fs1 w1 h p hp with h1 | h1
        · rcases List.mem_append.mp h1 with h2 | h2
          · exact Or.inl h2
          · right
            have : p = target_name od bn fmt i := by simpa using h2
            subst this
            exact hmem
        · right
          intro hpfs
          exact h1 (List.mem_append_left _ hpfs)
      case isFalse hs =>
        simp only [Prod.mk.injEq] at h
        obtain ⟨_, _, hw⟩ := h
        subst hw
        exact Or.inl hp

/-- Claim C7: a split run never overwrites — every path it writes was
absent when the run started — and re-running a successful split on the
resulting output state succeeds again with zero writes, the
already-existing quadrants being silently skipped. -/
theorem c7_split_idempotent (env : Env) (fs : List String)
    (image_path output_dir output_format : String)
    (image_types : Option (List String)) (b : Bool) (fs1 W : List String)
    (h : split_image env fs image_path output_dir output_format image_types =
      Except.ok (b, fs1, W)) :
    (∀ p ∈ W, p ∉ fs) ∧
    (b = true →
      split_image env fs1 image_path output_dir output_format image_types =
        Except.ok (true, fs1, [])) := by
  cases hacq : acquire_image env image_path image_types with
  | none =>
    simp only [split_image, hacq, Except.ok.injEq, Prod.mk.injEq] at h
    obtain ⟨hb, hfs, hW⟩ := h
    subst hb; subst hfs; subst hW
    exact ⟨by simp, by simp⟩
  | some img =>
    simp only [split_image, hacq] at h ⊢
    by_cases hpar : img.width % 2 ≠ 0 ∨ img.height % 2 ≠ 0
    · rw [if_pos hpar] at h
      rw [if_pos hpar]
      simp only [Except.ok.injEq, Prod.mk.injEq] at h
      obtain ⟨hb, hfs, hW⟩ := h
      subst hb; subst hfs; subst hW
      exact ⟨by simp, by simp⟩
    · rw [if_neg hpar] at h
      rw [if_neg hpar]
      cases hfmt : (if output_format = "" ∨ output_format = "default"
          then get_image_type env image_path else Except.ok output_format) with
      | error e =>
        rw [hfmt] at h
        exact absurd h (by simp)
      | ok fmt =>
        rw [hfmt] at h
        simp only [] at h ⊢
        by_cases hfz : fmt = ""
        · rw [if_pos hfz] at h
          rw [if_pos hfz]
          simp only [Except.ok.injEq, Prod.mk.injEq] at h
          obtain ⟨hb, hfs, hW⟩ := h
          subst hb; subst hfs; subst hW
          exact ⟨by simp, by simp⟩
        · rw [if_neg hfz] at h
          rw [if_neg hfz]
          simp only [Except.ok.injEq] at h
          constructor
          · intro p hp
            rcases save_quadrants_writes_new env output_dir
                (splitext (basename image_path)).1 fmt
                (quadrant_boxes img.width img.height) 0 fs [] b fs1 W h p hp with
              h1 | h1
            · exact absurd h1 (by simp)
            · exact h1
          · intro hb
            subst hb
            have htargets := save_quadrants_success_targets env output_dir
              (splitext (basename image_path)).1 fmt
              (quadrant_boxes img.width img.height) 0 fs [] fs1 W h
            rw [save_quadrants_all_present env output_dir
              (splitext (basename image_path)).1 fmt
              (quadrant_boxes img.width img.height) 0 fs1 []
              (fun j hj => htargets j hj)]

/-- Witness for claim C7's theorem: a concrete successful run of
split_image, whose four writes were all fresh, and whose re-run on the
produced state succeeds with zero writes. -/
theorem c7_idempotent_witness :
    (∀ p ∈ ["outputs/grid_1.png", "outputs/grid_2.png",
            "outputs/grid_3.png", "outputs/grid_4.png"], p ∉ ([] : List String)) ∧
    (true = true →
      split_image envGrid
        ["outputs/grid_1.png", "outputs/grid_2.png",
         "outputs/grid_3.png", "outputs/grid_4.png"]
        "grid.png" "outputs" "png" (some ["png"]) =
        Except.ok (true,
          ["outputs/grid_1.png", "outputs/grid_2.png",
           "outputs/grid_3.png", "outputs/grid_4.png"], [])) :=
  c7_split_idempotent envGrid [] "grid.png" "outputs" "png" (some ["png"]) true
    ["outputs/grid_1.png", "outputs/grid_2.png",
     "outputs/grid_3.png", "outputs/grid_4.png"]
    ["outputs/grid_1.png", "outputs/grid_2.png",
     "outputs/grid_3.png", "outputs/grid_4.png"]
    rfl

/-- Claim C9, amended: a configuration file that is missing when its
loader runs does terminate with exit status 1; but main first provisions
every missing config file with its default content, so a run that begins
with missing configuration files proceeds with the defaults instead of
terminating. -/
theorem c9_exit_only_when_missing_at_load :
    (∀ (fs : List (String × String)) (p : String), lookupFile fs p = none →
      load_supported_extensions fs p = Except.error 1 ∧
      load_output_format fs p = Except.error 1 ∧
      load_recursive_policy fs p = Except.error 1) ∧
    main_config_phase [] =
      Except.ok (["png", "jpg", "jpeg", "webp"], "default", true) := by
  constructor
  · intro fs p h
    refine ⟨?_, ?_, ?_⟩ <;>
      simp [load_supported_extensions, load_output_format, load_recursive_policy, h]
  · rfl

end Splitter
